import Mathlib

/-!
Verification of the org-network React Flow widget (graph state
synchronization and incremental layout engine).

Shallow embedding notes:
* Namespace `OrgNet` models the stateful widget of
  `src/unnamed/part_005` (OrgNetworkFlow): the simplified/positioned
  converters, the pending-connection gesture, duplicate suppression,
  reconnect, subtree delete and the add-child modal confirm.
* Namespace `KeyedWidget` models the structural-fingerprint layout cache
  of `src/src/components/orgNetworkWidget.tsx` (same logic appears in
  `src/unnamed/part_006`).
* The Dagre layout solver is an external collaborator; it is modelled as
  an abstract position oracle `layout : String → Pos` threaded through
  the functions that invoke it (only node positions depend on it).
* The `addEdge` / `reconnectEdge` helpers of the external `@xyflow/react`
  library are embedded from their library semantics because the widget
  calls them directly.
* The recursive `getDescendants` of the source has no termination guard;
  it is embedded with an explicit fuel parameter, `none` signalling that
  the JavaScript recursion does not terminate within the given depth.
-/

namespace OrgNet

/-- The enumerated relationship kinds (`ConnectionType` in `types.ts`). -/
inductive ConnectionType where
  | reportsTo
  | collaborates
  | funds
  | advises
deriving DecidableEq, Repr

/-- The string literal each `ConnectionType` value is written as in the source. -/
def ctString : ConnectionType → String
  | .reportsTo => "reports-to"
  | .collaborates => "collaborates"
  | .funds => "funds"
  | .advises => "advises"

/-- Visual style descriptor (`ConnectionTypeStyle` in `types.ts`). -/
structure ConnStyle where
  label : String
  color : String
  strokeDasharray : Option String
  animated : Bool
  icon : String
  edgeType : String
deriving DecidableEq, Repr

/-- The `CONNECTION_TYPES` registry of `types.ts`. -/
def CONNECTION_TYPES : ConnectionType → ConnStyle
  | .reportsTo => { label := "Reports To", color := "#1976d2", strokeDasharray := none,
                    animated := false, icon := "⬆", edgeType := "smoothstep" }
  | .collaborates => { label := "Collaborates", color := "#16a34a", strokeDasharray := some "6 3",
                       animated := true, icon := "🤝", edgeType := "default" }
  | .funds => { label := "Funds", color := "#d97706", strokeDasharray := some "2 4",
                animated := false, icon := "💰", edgeType := "straight" }
  | .advises => { label := "Advises", color := "#9333ea", strokeDasharray := some "8 4 2 4",
                  animated := true, icon := "💡", edgeType := "step" }

/-- A screen/graph coordinate. Dagre produces numeric coordinates; the claims
never depend on their values, so integers suffice. -/
abbrev Pos := Int × Int

/-- Simplified node record (the widget's simplified schema: `id`, `label`,
`description`, `memberCount`, as read and written by `toSimplifiedNodes`). -/
structure NodeInput where
  id : String
  label : String
  description : Option String
  memberCount : Option Nat
deriving DecidableEq, Repr

/-- Simplified edge record (`EdgeInput` in `types.ts`). -/
structure EdgeInput where
  id : String
  source : String
  target : String
  connectionType : Option ConnectionType
deriving DecidableEq, Repr

/-- The `data` payload carried by a React Flow org node (`OrgNodeData`). -/
structure NodeData where
  label : String
  description : Option String
  memberCount : Option Nat
deriving DecidableEq, Repr

/-- A positioned React Flow node as produced by the widget. -/
structure RNode where
  id : String
  ntype : String
  position : Pos
  data : NodeData
deriving DecidableEq, Repr

/-- The `style` object attached to a React Flow edge. -/
structure EdgeStyle where
  stroke : String
  strokeWidth : Nat
  strokeDasharray : Option String
deriving DecidableEq, Repr

/-- A React Flow edge as produced by the widget; `data` models the
`data.connectionType` payload (`none` when the edge carries no data). -/
structure REdge where
  id : String
  source : String
  target : String
  etype : String
  animated : Bool
  style : EdgeStyle
  sourceHandle : Option String := none
  targetHandle : Option String := none
  data : Option ConnectionType := none
deriving DecidableEq, Repr

/-- An in-progress connect gesture reported by the rendering surface. -/
structure Connection where
  source : String
  target : String
  sourceHandle : Option String := none
  targetHandle : Option String := none
deriving DecidableEq, Repr

/-- A gesture paused for the relationship-type choice
(`PendingConnection` in part_005). -/
structure PendingConnection where
  connection : Connection
  position : Pos
deriving DecidableEq, Repr

/-- The slice of the widget state the reconciler operations touch. -/
structure WState where
  nodes : List RNode
  edges : List REdge
  pendingConnection : Option PendingConnection
  selectedNodeId : Option String
deriving DecidableEq, Repr

/-- Convert simplified inputs to React Flow nodes (part_005 `toRFNodes`).
The source copies only `label` and `description` into `data`. -/
def toRFNodes (inputs : List NodeInput) : List RNode :=
  inputs.map (fun n =>
    { id := n.id, ntype := "orgNode", position := (0, 0),
      data := { label := n.label, description := n.description, memberCount := none } })

/-- Convert simplified inputs to React Flow edges (part_005 `toRFEdges`). -/
def toRFEdges (inputs : List EdgeInput) : List REdge :=
  inputs.map (fun e =>
    let connType := e.connectionType.getD .reportsTo
    let style := CONNECTION_TYPES connType
    { id := e.id, source := e.source, target := e.target, etype := "smoothstep",
      animated := style.animated,
      style := { stroke := style.color, strokeWidth := 2, strokeDasharray := style.strokeDasharray },
      data := some connType })

/-- Convert React Flow nodes back to simplified records (part_005 `toSimplifiedNodes`). -/
def toSimplifiedNodes (rfNodes : List RNode) : List NodeInput :=
  rfNodes.map (fun n =>
    { id := n.id, label := n.data.label, description := n.data.description,
      memberCount := n.data.memberCount })

/-- Convert React Flow edges back to simplified records (part_005 `toSimplifiedEdges`). -/
def toSimplifiedEdges (rfEdges : List REdge) : List EdgeInput :=
  rfEdges.map (fun e =>
    { id := e.id, source := e.source, target := e.target,
      connectionType := some (e.data.getD .reportsTo) })

/-- The edge id the widget derives from endpoints and type. -/
def deriveEdgeId (source target : String) (t : ConnectionType) : String :=
  "e-" ++ source ++ "-" ++ target ++ "-" ++ ctString t

/-- The edge id the `@xyflow` library derives for a connection
(its internal `getEdgeId`). -/
def xyEdgeId (c : Connection) : String :=
  "xy-edge__" ++ c.source ++ c.sourceHandle.getD "" ++ "-" ++ c.target ++ c.targetHandle.getD ""

/-- JavaScript falsiness of an optional handle (absent or empty string). -/
def falsyHandle (o : Option String) : Prop := o.getD "" = ""

instance (o : Option String) : Decidable (falsyHandle o) := by
  unfold falsyHandle; infer_instance

/-- The `@xyflow` `addEdge` helper: appends the edge unless a connection with
the same source, target and handles already exists. -/
def addEdge (e : REdge) (edges : List REdge) : List REdge :=
  if e.source = "" ∨ e.target = "" then edges
  else if edges.any (fun el => decide (el.source = e.source ∧ el.target = e.target ∧
      (el.sourceHandle = e.sourceHandle ∨ (falsyHandle el.sourceHandle ∧ falsyHandle e.sourceHandle)) ∧
      (el.targetHandle = e.targetHandle ∨ (falsyHandle el.targetHandle ∧ falsyHandle e.targetHandle))))
  then edges
  else edges ++ [e]

/-- The `@xyflow` `reconnectEdge` helper: removes the old edge and appends a
copy of it with the new endpoints and a freshly derived library id. -/
def reconnectEdge (oldEdge : REdge) (c : Connection) (edges : List REdge) : List REdge :=
  if c.source = "" ∨ c.target = "" then edges
  else if edges.any (fun e => decide (e.id = oldEdge.id)) then
    edges.filter (fun e => decide (e.id ≠ oldEdge.id)) ++
      [{ oldEdge with id := xyEdgeId c, source := c.source, target := c.target,
                      sourceHandle := c.sourceHandle, targetHandle := c.targetHandle }]
  else edges

/-- part_005 `onConnect`: rejects self-loops, otherwise records the gesture as
the (single) pending connection. `popup` is the picker anchor computed from the
rendering surface. -/
def onConnectStep (readOnly : Bool) (conn : Connection) (popup : Pos) (s : WState) : WState :=
  if readOnly then s
  else if conn.source = conn.target then s
  else { s with pendingConnection := some { connection := conn, position := popup } }

/-- part_005 `handleConnectionTypeSelect`: finalizes the pending gesture with
the chosen type, silently dropping it when a same `(source, target, type)` edge
already exists. -/
def handleConnectionTypeSelect (t : ConnectionType) (s : WState) : WState :=
  match s.pendingConnection with
  | none => s
  | some pc =>
    let conn := pc.connection
    let connStyle := CONNECTION_TYPES t
    let duplicateExists := s.edges.any (fun e => decide (e.source = conn.source ∧
      e.target = conn.target ∧ e.data = some t))
    if duplicateExists then
      { s with pendingConnection := none }
    else
      let newEdge : REdge :=
        { id := "e-" ++ conn.source ++ "-" ++ conn.target ++ "-" ++ ctString t,
          source := conn.source, target := conn.target, etype := "smoothstep",
          animated := connStyle.animated,
          style := { stroke := connStyle.color, strokeWidth := 2,
                     strokeDasharray := connStyle.strokeDasharray },
          sourceHandle := conn.sourceHandle, targetHandle := conn.targetHandle,
          data := some t }
      { s with edges := addEdge newEdge s.edges, pendingConnection := none }

/-- part_005 `onReconnect`: moves an existing edge to new endpoints, keeping
its connection type; no-op on self-loop or when another edge with the same new
endpoints and type exists. -/
def onReconnectStep (readOnly : Bool) (oldEdge : REdge) (newConn : Connection) (s : WState) : WState :=
  if readOnly then s
  else if newConn.source = newConn.target then s
  else
    let connType := oldEdge.data.getD .reportsTo
    let duplicateExists := s.edges.any (fun e => decide (e.id ≠ oldEdge.id ∧
      e.source = newConn.source ∧ e.target = newConn.target ∧ e.data = some connType))
    if duplicateExists then s
    else
      let updated := reconnectEdge oldEdge newConn s.edges
      let finalEdges := updated.map (fun e =>
        if e.source = newConn.source ∧ e.target = newConn.target ∧
            ¬ s.edges.any (fun orig => decide (orig.id = e.id ∧ orig.source = e.source ∧
              orig.target = e.target)) then
          let connStyle := CONNECTION_TYPES connType
          { e with id := "e-" ++ e.source ++ "-" ++ e.target ++ "-" ++ ctString connType,
                   etype := "smoothstep", animated := connStyle.animated,
                   style := { stroke := connStyle.color, strokeWidth := 2,
                              strokeDasharray := connStyle.strokeDasharray },
                   data := some connType }
        else e)
      { s with edges := finalEdges }

/-- One level of the descendant traversal (the body of the source's `reduce`):
for each child in order, emit the child followed by its transitive
descendants computed by `rec`; `none` propagates fuel exhaustion. -/
def descStep (rec : String → Option (List String)) : List String → Option (List String)
  | [] => some []
  | c :: cs =>
    match rec c, descStep rec cs with
    | some ds, some rest => some (c :: ds ++ rest)
    | _, _ => none

/-- part_005 `getDescendants`: collects all ids reachable from `id` via
outgoing edges. The source recurses with no visited-set guard; `fuel` bounds
the recursion depth, `none` meaning the JavaScript recursion does not
terminate within that depth. -/
def getDescendants (allEdges : List REdge) : Nat → String → Option (List String)
  | 0 => fun _ => none
  | fuel + 1 => fun id =>
    descStep (getDescendants allEdges fuel)
      ((allEdges.filter (fun e => decide (e.source = id))).map (fun e => e.target))

/-- Re-running the (external) Dagre layout: every node gets the oracle's
position for its id; nothing else changes. -/
def applyLayout (layout : String → Pos) (nodes : List RNode) : List RNode :=
  nodes.map (fun n => { n with position := layout n.id })

/-- part_005 `handleDelete`: subtree cascade delete. Removes the node, all its
descendants via outgoing edges, and every edge touching a removed node, then
re-layouts and drops the selection if it pointed into the deleted set.
Returns `none` when the descendant recursion exceeds `fuel`. -/
def handleDelete (fuel : Nat) (layout : String → Pos) (nodeId : String) (s : WState) :
    Option WState :=
  match getDescendants s.edges fuel nodeId with
  | none => none
  | some ds =>
    let idsToDelete := nodeId :: ds
    let remainingNodes := s.nodes.filter (fun n => decide (n.id ∉ idsToDelete))
    let remainingEdges := s.edges.filter (fun e =>
      decide (e.source ∉ idsToDelete ∧ e.target ∉ idsToDelete))
    some { s with
      nodes := applyLayout layout remainingNodes,
      edges := remainingEdges,
      selectedNodeId :=
        if (s.selectedNodeId.getD "") ∈ idsToDelete then none else s.selectedNodeId }

/-- The node id part_005 `handleModalConfirm` (and App3 `handleAddConfirm`)
synthesize in add mode; `now` is the wall clock `Date.now()` value. -/
def genNodeId (now : Nat) : String := "org-" ++ toString now

/-- part_005 `handleModalConfirm`, add mode: synthesize a new child node and a
`reports-to` edge from the parent, then re-layout. -/
def handleModalConfirmAdd (layout : String → Pos) (now : Nat)
    (parentId name description : String) (s : WState) : WState :=
  let newId := genNodeId now
  let newNode : RNode :=
    { id := newId, ntype := "orgNode", position := (0, 0),
      data := { label := name,
                description := if description = "" then none else some description,
                memberCount := some 0 } }
  let connType : ConnectionType := .reportsTo
  let connStyle := CONNECTION_TYPES connType
  let newEdge : REdge :=
    { id := deriveEdgeId parentId newId connType,
      source := parentId, target := newId, etype := "smoothstep",
      animated := connStyle.animated,
      style := { stroke := connStyle.color, strokeWidth := 2,
                 strokeDasharray := connStyle.strokeDasharray },
      data := some connType }
  let allNodes := s.nodes ++ [newNode]
  let allEdges := s.edges ++ [newEdge]
  { s with nodes := applyLayout layout allNodes, edges := allEdges }

end OrgNet

namespace KeyedWidget

/-- Layout direction prop (`'TB' | 'LR'`). -/
inductive Direction where
  | TB
  | LR
deriving DecidableEq, Repr

/-- The string the direction is written as. -/
def dirString : Direction → String
  | .TB => "TB"
  | .LR => "LR"

/-- Simplified node prop of the keyed widget
(`NodeInput` of orgNetworkWidget.tsx / part_006: carries a position). -/
structure SNode where
  id : String
  position : OrgNet.Pos
  label : Option String
  description : Option String
deriving DecidableEq, Repr

/-- Simplified edge prop of the keyed widget. -/
structure SEdge where
  id : String
  source : String
  target : String
  sourceHandle : Option String := none
  targetHandle : Option String := none
  connectionType : Option OrgNet.ConnectionType := none
deriving DecidableEq, Repr

/-- Insertion of a string into a sorted list, ordered exactly by the total
`compare` on strings (mirrors the JavaScript `Array.sort()` comparison). -/
def insertStr (s : String) : List String → List String
  | [] => [s]
  | t :: ts =>
    match compare s t with
    | .gt => t :: insertStr s ts
    | _ => s :: t :: ts

/-- Sort a list of strings (the `.sort()` call in `structureKey`). -/
def sortStrs (l : List String) : List String := l.foldr insertStr []

/-- The structural fingerprint of orgNetworkWidget.tsx / part_006:
sorted node ids, sorted `source-target` pairs, and the direction. -/
def structureKey (nodes : List SNode) (edges : List SEdge) (direction : Direction) : String :=
  let nk := String.intercalate "," (sortStrs (nodes.map (fun n => n.id)))
  let ek := String.intercalate "," (sortStrs (edges.map (fun e => e.source ++ "-" ++ e.target)))
  nk ++ "|" ++ ek ++ "|" ++ dirString direction

/-- A positioned node of the keyed widget (only the fields the layout cache
logic touches). -/
structure KNode where
  id : String
  position : OrgNet.Pos
  label : Option String
  description : Option String
deriving DecidableEq, Repr

/-- The keyed widget's `toRFNodes`: keeps the externally supplied position. -/
def toKNodes (inputs : List SNode) : List KNode :=
  inputs.map (fun n =>
    { id := n.id, position := n.position, label := n.label, description := n.description })

/-- Result of one `rfData` memo pass: the positioned nodes, whether the Dagre
solver was invoked, and the updated fingerprint/cache refs. -/
structure RfDataResult where
  nodes : List KNode
  solverCalled : Bool
  prevKey : String
  cache : String → Option OrgNet.Pos

/-- One evaluation of the `rfData` memo of orgNetworkWidget.tsx / part_006:
if the fingerprint changed, run the (external) solver and refill the cache;
otherwise keep supplied positions, falling back to the cached solver position
for nodes still at the `(0,0)` sentinel. -/
def rfDataStep (layout : String → OrgNet.Pos) (nodes : List SNode) (edges : List SEdge)
    (direction : Direction) (prevKey : String) (cache : String → Option OrgNet.Pos) :
    RfDataResult :=
  let rfNodes := toKNodes nodes
  let key := structureKey nodes edges direction
  if key ≠ prevKey then
    let layouted := rfNodes.map (fun n => { n with position := layout n.id })
    { nodes := layouted, solverCalled := true, prevKey := key,
      cache := fun id => (layouted.find? (fun n => decide (n.id = id))).map (fun n => n.position) }
  else
    { nodes := rfNodes.map (fun n =>
        { n with position := if n.position = (0, 0) then (cache n.id).getD n.position
                             else n.position }),
      solverCalled := false, prevKey := prevKey, cache := cache }

end KeyedWidget

namespace OrgNet

/-- Number of pending gestures a negotiator state holds. -/
def pendingCount : Option PendingConnection → Nat
  | none => 0
  | some _ => 1

/-- A concrete default style, reused by the demo fixtures below. -/
def demoStyle : EdgeStyle := { stroke := "#1976d2", strokeWidth := 2, strokeDasharray := none }

/-- A concrete `reports-to` edge from A to B, used as a fixture. -/
def demoEdgeAB : REdge :=
  { id := "e1", source := "A", target := "B", etype := "smoothstep", animated := false,
    style := demoStyle, data := some .reportsTo }

/-- A concrete widget state holding the single edge A→B, used as a fixture. -/
def demoState : WState :=
  { nodes := [], edges := [demoEdgeAB], pendingConnection := none, selectedNodeId := none }

end OrgNet

/-- C8: a connect gesture whose source equals its target is a complete no-op:
the state (in particular the pending-connection slot and the edge set) is
returned unchanged, so no pending gesture and no edge is ever produced. -/
theorem OrgNet.onConnect_selfLoop_noop (readOnly : Bool) (conn : OrgNet.Connection)
    (popup : OrgNet.Pos) (s : OrgNet.WState) (h : conn.source = conn.target) :
    OrgNet.onConnectStep readOnly conn popup s = s := by
  unfold OrgNet.onConnectStep
  by_cases hr : readOnly <;> simp [hr, h]

/-- C8 witness: the self-loop connect gesture on A leaves the demo state intact. -/
theorem OrgNet.onConnect_selfLoop_noop_witness :
    OrgNet.onConnectStep false { source := "A", target := "A" } (0, 0) OrgNet.demoState =
      OrgNet.demoState :=
  OrgNet.onConnect_selfLoop_noop false { source := "A", target := "A" } (0, 0)
    OrgNet.demoState rfl

/-- C9: starting a valid connect gesture while another gesture is already
pending overwrites it: afterwards the new gesture is the pending one and
exactly one gesture is pending, never two. -/
theorem OrgNet.onConnect_singleFlight (conn : OrgNet.Connection) (popup : OrgNet.Pos)
    (s : OrgNet.WState) (p : OrgNet.PendingConnection)
    (hp : s.pendingConnection = some p) (hne : conn.source ≠ conn.target) :
    (OrgNet.onConnectStep false conn popup s).pendingConnection =
        some { connection := conn, position := popup } ∧
    OrgNet.pendingCount (OrgNet.onConnectStep false conn popup s).pendingConnection = 1 := by
  unfold OrgNet.onConnectStep
  simp [hne, OrgNet.pendingCount]

/-- C9 witness: a second gesture B→A over a pending A→B gesture leaves exactly
one pending gesture. -/
theorem OrgNet.onConnect_singleFlight_witness :
    (OrgNet.onConnectStep false { source := "B", target := "A" } (1, 1)
        { OrgNet.demoState with
          pendingConnection := some { connection := { source := "A", target := "B" },
                                      position := (0, 0) } }).pendingConnection =
      some { connection := { source := "B", target := "A" }, position := (1, 1) } ∧
    OrgNet.pendingCount
      (OrgNet.onConnectStep false { source := "B", target := "A" } (1, 1)
        { OrgNet.demoState with
          pendingConnection := some { connection := { source := "A", target := "B" },
                                      position := (0, 0) } }).pendingConnection = 1 :=
  OrgNet.onConnect_singleFlight { source := "B", target := "A" } (1, 1) _
    { connection := { source := "A", target := "B" }, position := (0, 0) } rfl (by decide)

/-- C2: finalizing a pending connection (A, B) with type t while an edge with
the same source, target and connectionType already exists leaves the edge set
unchanged (a silent no-op, no error value). -/
theorem OrgNet.finalize_duplicate_noop (t : OrgNet.ConnectionType) (s : OrgNet.WState)
    (pc : OrgNet.PendingConnection) (hp : s.pendingConnection = some pc)
    (e : OrgNet.REdge) (he : e ∈ s.edges) (hs : e.source = pc.connection.source)
    (ht : e.target = pc.connection.target) (hd : e.data = some t) :
    (OrgNet.handleConnectionTypeSelect t s).edges = s.edges := by
  unfold OrgNet.handleConnectionTypeSelect
  rw [hp]
  have hex : ∃ x ∈ s.edges, x.source = pc.connection.source ∧
      x.target = pc.connection.target ∧ x.data = some t := ⟨e, he, hs, ht, hd⟩
  simp [hex]

/-- C2 witness: re-finalizing A→B as reports-to over the demo state that
already holds that edge keeps the edge list identical. -/
theorem OrgNet.finalize_duplicate_noop_witness :
    (OrgNet.handleConnectionTypeSelect .reportsTo
      { OrgNet.demoState with
        pendingConnection := some { connection := { source := "A", target := "B" },
                                    position := (0, 0) } }).edges =
      ({ OrgNet.demoState with
         pendingConnection := some { connection := { source := "A", target := "B" },
                                     position := (0, 0) } } : OrgNet.WState).edges :=
  OrgNet.finalize_duplicate_noop .reportsTo _
    { connection := { source := "A", target := "B" }, position := (0, 0) } rfl
    OrgNet.demoEdgeAB (by decide) rfl rfl rfl

/-- A concrete simplified node carrying a member count, exhibiting the
round-trip loss. -/
def OrgNet.mcNode : OrgNet.NodeInput :=
  { id := "a", label := "Team A", description := none, memberCount := some 5 }

/-- C5 counterexample: converting a node with `memberCount = 5` to the
positioned representation and back does not reproduce the original node,
because `toRFNodes` never copies `memberCount` into the node data. -/
theorem OrgNet.roundTrip_memberCount_counterexample :
    OrgNet.toSimplifiedNodes (OrgNet.toRFNodes [OrgNet.mcNode]) ≠ [OrgNet.mcNode] := by
  decide

/-- C5 (amended): the round trip reproduces node `id`, `label` and
`description` exactly but always erases `memberCount`, and reproduces edge
`id`, `source` and `target` exactly with `connectionType` preserved when
supplied and defaulted to `reports-to` when absent. -/
theorem OrgNet.roundTrip_amended (ns : List OrgNet.NodeInput) (es : List OrgNet.EdgeInput) :
    OrgNet.toSimplifiedNodes (OrgNet.toRFNodes ns) =
        ns.map (fun n => { n with memberCount := none }) ∧
    OrgNet.toSimplifiedEdges (OrgNet.toRFEdges es) =
        es.map (fun e => { e with connectionType := some (e.connectionType.getD .reportsTo) }) := by
  constructor
  · simp only [OrgNet.toSimplifiedNodes, OrgNet.toRFNodes, List.map_map]
    rfl
  · simp only [OrgNet.toSimplifiedEdges, OrgNet.toRFEdges, List.map_map]
    rfl

/-- A concrete widget state that already contains a node whose id is the
wall-clock id for `Date.now() = 123`. -/
def OrgNet.clashState : OrgNet.WState :=
  { nodes := [{ id := "org-123", ntype := "orgNode", position := (0, 0),
                data := { label := "Existing", description := none, memberCount := none } }],
    edges := [], pendingConnection := none, selectedNodeId := none }

/-- C7: the add-child flow derives the new node id from the wall clock alone
(`org-` ++ `Date.now()`), so when the current node set already contains that
id the synthesized id is not unique: after the confirm the node list carries
a duplicate id. -/
theorem OrgNet.addChild_id_collision :
    OrgNet.genNodeId 123 ∈ OrgNet.clashState.nodes.map OrgNet.RNode.id ∧
    ¬ ((OrgNet.handleModalConfirmAdd (fun _ => (0, 0)) 123 "org-123" "New Team" ""
          OrgNet.clashState).nodes.map OrgNet.RNode.id).Nodup := by
  decide

/-- C3: two graphs with the same node ids, the same (source, target) edge
pairs and the same direction — hence differing only in attributes such as
label, description, member count, selection or dragged position — have the
same structural fingerprint, and a render pass whose previous fingerprint was
taken from the first graph performs no Dagre solver call on the second. -/
theorem KeyedWidget.structureKey_insensitive (n1 n2 : List KeyedWidget.SNode)
    (e1 e2 : List KeyedWidget.SEdge) (d : KeyedWidget.Direction)
    (hn : n1.map KeyedWidget.SNode.id = n2.map KeyedWidget.SNode.id)
    (he : e1.map (fun e => (e.source, e.target)) = e2.map (fun e => (e.source, e.target))) :
    KeyedWidget.structureKey n1 e1 d = KeyedWidget.structureKey n2 e2 d ∧
    ∀ layout cache,
      (KeyedWidget.rfDataStep layout n2 e2 d (KeyedWidget.structureKey n1 e1 d)
        cache).solverCalled = false := by
  have hpairs : e1.map (fun e => e.source ++ "-" ++ e.target) =
      e2.map (fun e => e.source ++ "-" ++ e.target) := by
    have h := congrArg (List.map (fun p : String × String => p.1 ++ "-" ++ p.2)) he
    simpa [List.map_map, Function.comp] using h
  have hkey : KeyedWidget.structureKey n1 e1 d = KeyedWidget.structureKey n2 e2 d := by
    unfold KeyedWidget.structureKey
    rw [hn, hpairs]
  refine ⟨hkey, fun layout cache => ?_⟩
  unfold KeyedWidget.rfDataStep
  simp [hkey]

/-- First concrete fixture graph for the fingerprint check. -/
def KeyedWidget.fixNodes1 : List KeyedWidget.SNode :=
  [{ id := "hq", position := (0, 0), label := some "Headquarters", description := none }]

/-- Second fixture graph: same id, different label, dragged position. -/
def KeyedWidget.fixNodes2 : List KeyedWidget.SNode :=
  [{ id := "hq", position := (40, 25), label := some "HQ renamed", description := some "moved" }]

/-- C3 witness: renaming and dragging the single node leaves the fingerprint
unchanged and triggers no solver call on the re-render. -/
theorem KeyedWidget.structureKey_insensitive_witness :
    KeyedWidget.structureKey KeyedWidget.fixNodes1 [] .TB =
        KeyedWidget.structureKey KeyedWidget.fixNodes2 [] .TB ∧
    (KeyedWidget.rfDataStep (fun _ => (7, 7)) KeyedWidget.fixNodes2 [] .TB
        (KeyedWidget.structureKey KeyedWidget.fixNodes1 [] .TB)
        (fun _ => none)).solverCalled = false := by
  have h := KeyedWidget.structureKey_insensitive KeyedWidget.fixNodes1 KeyedWidget.fixNodes2
    [] [] .TB (by decide) rfl
  exact ⟨h.1, h.2 (fun _ => (7, 7)) (fun _ => none)⟩

/-- A cyclic edge set reachable from node a: a→b and b→a. -/
def OrgNet.cycEdges : List OrgNet.REdge :=
  [{ id := "c1", source := "a", target := "b", etype := "smoothstep", animated := false,
     style := OrgNet.demoStyle, data := some .reportsTo },
   { id := "c2", source := "b", target := "a", etype := "smoothstep", animated := false,
     style := OrgNet.demoStyle, data := some .reportsTo }]

/-- A diamond edge set: a→b, a→c, b→d, c→d, so d is reachable twice. -/
def OrgNet.diamondEdges : List OrgNet.REdge :=
  [{ id := "d1", source := "a", target := "b", etype := "smoothstep", animated := false,
     style := OrgNet.demoStyle, data := some .reportsTo },
   { id := "d2", source := "a", target := "c", etype := "smoothstep", animated := false,
     style := OrgNet.demoStyle, data := some .reportsTo },
   { id := "d3", source := "b", target := "d", etype := "smoothstep", animated := false,
     style := OrgNet.demoStyle, data := some .reportsTo },
   { id := "d4", source := "c", target := "d", etype := "smoothstep", animated := false,
     style := OrgNet.demoStyle, data := some .reportsTo }]

/-- C1: the cascade traversal has no visited-set guard. On the cyclic edge set
a→b→a the recursion started at a never terminates (it exhausts every finite
recursion depth), and on the acyclic diamond it revisits d, collecting it
twice in the cascade list. -/
theorem OrgNet.getDescendants_cycle_diverges :
    (∀ fuel, OrgNet.getDescendants OrgNet.cycEdges fuel "a" = none) ∧
    OrgNet.getDescendants OrgNet.diamondEdges 3 "a" = some ["b", "d", "c", "d"] := by
  constructor
  · have key : ∀ n, OrgNet.getDescendants OrgNet.cycEdges n "a" = none ∧
        OrgNet.getDescendants OrgNet.cycEdges n "b" = none := by
      intro n
      induction n with
      | zero => exact ⟨rfl, rfl⟩
      | succ n ih =>
        constructor
        · show OrgNet.descStep (OrgNet.getDescendants OrgNet.cycEdges n) ["b"] = none
          simp [OrgNet.descStep, ih.2]
        · show OrgNet.descStep (OrgNet.getDescendants OrgNet.cycEdges n) ["a"] = none
          simp [OrgNet.descStep, ih.1]
    exact fun fuel => (key fuel).1
  · decide

/-- One traversal level is unchanged when the recursive call is refined on
every child where it already succeeds. -/
theorem OrgNet.descStep_congr (r1 r2 : String → Option (List String))
    (h : ∀ c, (r1 c).isSome → r2 c = r1 c) :
    ∀ cs, (OrgNet.descStep r1 cs).isSome → OrgNet.descStep r2 cs = OrgNet.descStep r1 cs := by
  intro cs
  induction cs with
  | nil => intro _; rfl
  | cons c cs ih =>
    intro hsome
    cases h1 : r1 c with
    | none =>
      exfalso
      have hred : OrgNet.descStep r1 (c :: cs) = none := by
        cases h2 : OrgNet.descStep r1 cs <;> simp [OrgNet.descStep, h1, h2]
      rw [hred] at hsome
      exact Bool.noConfusion hsome
    | some ds =>
      cases h2 : OrgNet.descStep r1 cs with
      | none =>
        exfalso
        have hred : OrgNet.descStep r1 (c :: cs) = none := by
          simp [OrgNet.descStep, h1, h2]
        rw [hred] at hsome
        exact Bool.noConfusion hsome
      | some rest =>
        have hr2 : r2 c = some ds := by rw [h c (by rw [h1]; rfl), h1]
        have hd2 : OrgNet.descStep r2 cs = some rest := by
          rw [ih (by rw [h2]; rfl), h2]
        simp [OrgNet.descStep, h1, h2, hr2, hd2]

/-- Adding one unit of fuel does not change a traversal that already
terminates. -/
theorem OrgNet.getDescendants_succ (E : List OrgNet.REdge) :
    ∀ n id, (OrgNet.getDescendants E n id).isSome →
      OrgNet.getDescendants E (n + 1) id = OrgNet.getDescendants E n id := by
  intro n
  induction n with
  | zero =>
    intro id h
    exact absurd h (by simp [OrgNet.getDescendants])
  | succ n ih =>
    intro id h
    have h' : (OrgNet.descStep (OrgNet.getDescendants E n)
        ((E.filter (fun e => decide (e.source = id))).map (fun e => e.target))).isSome := h
    show OrgNet.descStep (OrgNet.getDescendants E (n + 1))
        ((E.filter (fun e => decide (e.source = id))).map (fun e => e.target)) =
      OrgNet.descStep (OrgNet.getDescendants E n)
        ((E.filter (fun e => decide (e.source = id))).map (fun e => e.target))
    exact OrgNet.descStep_congr (OrgNet.getDescendants E n) (OrgNet.getDescendants E (n + 1))
      ih ((E.filter (fun e => decide (e.source = id))).map (fun e => e.target)) h'

/-- Fuel monotonicity: a terminating traversal gives the same answer at any
larger fuel. -/
theorem OrgNet.getDescendants_mono (E : List OrgNet.REdge) (n m : Nat) (h : n ≤ m)
    (id : String) (hs : (OrgNet.getDescendants E n id).isSome) :
    OrgNet.getDescendants E m id = OrgNet.getDescendants E n id := by
  induction m with
  | zero =>
    have h0 : n = 0 := Nat.le_zero.mp h
    subst h0; rfl
  | succ m ih =>
    cases Nat.eq_or_lt_of_le h with
    | inl heq => subst heq; rfl
    | inr hlt =>
      have hnm : n ≤ m := Nat.lt_succ_iff.mp hlt
      have hsm : (OrgNet.getDescendants E m id).isSome := by
        rw [ih hnm]; exact hs
      rw [OrgNet.getDescendants_succ E m id hsm, ih hnm]

/-- A fixture node whose label is its id. -/
def OrgNet.fixNode (i : String) : OrgNet.RNode :=
  { id := i, ntype := "orgNode", position := (0, 0),
    data := { label := i, description := none, memberCount := none } }

/-- A fixture edge with the registry style of its type. -/
def OrgNet.mkEdge (id source target : String) (t : OrgNet.ConnectionType) : OrgNet.REdge :=
  { id := id, source := source, target := target, etype := "smoothstep",
    animated := (OrgNet.CONNECTION_TYPES t).animated,
    style := { stroke := (OrgNet.CONNECTION_TYPES t).color, strokeWidth := 2,
               strokeDasharray := (OrgNet.CONNECTION_TYPES t).strokeDasharray },
    data := some t }

/-- The spec scenario: reports-to chain a→b→c plus a collaborates edge d→b,
with d not reachable from a. -/
def OrgNet.chainState : OrgNet.WState :=
  { nodes := [OrgNet.fixNode "a", OrgNet.fixNode "b", OrgNet.fixNode "c", OrgNet.fixNode "d"],
    edges := [OrgNet.mkEdge "k1" "a" "b" .reportsTo, OrgNet.mkEdge "k2" "b" "c" .reportsTo,
              OrgNet.mkEdge "k3" "d" "b" .collaborates],
    pendingConnection := none, selectedNodeId := none }

/-- Re-layouting changes only positions, never the node ids. -/
theorem OrgNet.applyLayout_ids (layout : String → OrgNet.Pos) (ns : List OrgNet.RNode) :
    (OrgNet.applyLayout layout ns).map OrgNet.RNode.id = ns.map OrgNet.RNode.id := by
  unfold OrgNet.applyLayout
  rw [List.map_map]
  rfl

/-- C4: subtree-deleting a from the chain a→b→c with the extra collaborates
edge d→b removes exactly {a, b, c} and every incident edge (d→b included),
leaving only node d and no edges — for any layout oracle and any sufficient
recursion depth. -/
theorem OrgNet.handleDelete_subtree_cascade (layout : String → OrgNet.Pos) (fuel : Nat)
    (h : 3 ≤ fuel) :
    (OrgNet.handleDelete fuel layout "a" OrgNet.chainState).map
        (fun s => (s.nodes.map OrgNet.RNode.id, s.edges)) = some (["d"], []) := by
  have h3 : OrgNet.getDescendants OrgNet.chainState.edges 3 "a" = some ["b", "c"] := by decide
  have hf : OrgNet.getDescendants OrgNet.chainState.edges fuel "a" = some ["b", "c"] := by
    rw [OrgNet.getDescendants_mono OrgNet.chainState.edges 3 fuel h "a" (by rw [h3]; rfl), h3]
  unfold OrgNet.handleDelete
  rw [hf]
  simp only [Option.map_some', Option.some.injEq, Prod.mk.injEq]
  constructor
  · rw [OrgNet.applyLayout_ids]
    decide
  · decide

/-- C4 witness: the cascade result at depth 3 with the origin layout oracle. -/
theorem OrgNet.handleDelete_subtree_cascade_witness :
    (OrgNet.handleDelete 3 (fun _ => (0, 0)) "a" OrgNet.chainState).map
        (fun s => (s.nodes.map OrgNet.RNode.id, s.edges)) = some (["d"], []) :=
  OrgNet.handleDelete_subtree_cascade (fun _ => (0, 0)) 3 (by decide)

/-- C10: after a subtree delete that terminates, the selection never points at
a deleted node: a selection inside the cascade set is reset to `none`, a
selection outside it is kept unchanged, and any surviving selection was the
previous selection and lies outside the cascade set. -/
theorem OrgNet.handleDelete_selection (fuel : Nat) (layout : String → OrgNet.Pos)
    (nid : String) (s s' : OrgNet.WState) (ds : List String)
    (hd : OrgNet.getDescendants s.edges fuel nid = some ds)
    (h : OrgNet.handleDelete fuel layout nid s = some s') :
    (∀ x, s.selectedNodeId = some x → x ∈ nid :: ds → s'.selectedNodeId = none) ∧
    (∀ x, s.selectedNodeId = some x → x ∉ nid :: ds → s'.selectedNodeId = some x) ∧
    (∀ x, s'.selectedNodeId = some x → s.selectedNodeId = some x ∧ x ∉ nid :: ds) := by
  unfold OrgNet.handleDelete at h
  rw [hd] at h
  injection h with h'
  subst h'
  dsimp only
  by_cases hc : (s.selectedNodeId.getD "") ∈ nid :: ds
  · refine ⟨fun x hx hmem => ?_, fun x hx hnmem => ?_, fun x hx' => ?_⟩
    · simp [hc]
    · rw [hx] at hc
      simp only [Option.getD_some] at hc
      exact absurd hc hnmem
    · rw [if_pos hc] at hx'
      exact Option.noConfusion hx'
  · refine ⟨fun x hx hmem => ?_, fun x hx hnmem => ?_, fun x hx' => ?_⟩
    · rw [hx] at hc
      simp only [Option.getD_some] at hc
      exact absurd hmem hc
    · rw [if_neg hc, hx]
    · rw [if_neg hc] at hx'
      refine ⟨hx', ?_⟩
      rw [hx'] at hc
      simpa using hc

/-- The cascade fixture with node b selected before the delete. -/
def OrgNet.delState : OrgNet.WState :=
  { OrgNet.chainState with selectedNodeId := some "b" }

/-- C10 witness: deleting a while b (a cascade member) is selected resets the
selection to none. -/
theorem OrgNet.handleDelete_selection_witness :
    (OrgNet.handleDelete 3 (fun _ => (0, 0)) "a" OrgNet.delState).map
        OrgNet.WState.selectedNodeId = some none := by
  cases hh : OrgNet.handleDelete 3 (fun _ => (0, 0)) "a" OrgNet.delState with
  | none => exact absurd hh (by decide)
  | some s' =>
    have h := (OrgNet.handleDelete_selection 3 (fun _ => (0, 0)) "a" OrgNet.delState s'
      ["b", "c"] (by decide) hh).1 "b" rfl (by decide)
    rw [Option.map_some', h]

/-- The funds edge A→B about to be reconnected. -/
def OrgNet.oldFunds : OrgNet.REdge := OrgNet.mkEdge "f1" "A" "B" .funds

/-- A pre-existing collaborates edge A→C whose id happens to equal the
library-derived reconnect id for (A, C). -/
def OrgNet.clashingOrig : OrgNet.REdge := OrgNet.mkEdge "xy-edge__A-C" "A" "C" .collaborates

/-- State holding the two edges above. -/
def OrgNet.reconState : OrgNet.WState :=
  { nodes := [], edges := [OrgNet.oldFunds, OrgNet.clashingOrig],
    pendingConnection := none, selectedNodeId := none }

/-- The reconnect gesture moving the funds edge onto (A, C). -/
def OrgNet.newConnAC : OrgNet.Connection := { source := "A", target := "C" }

/-- C6 counterexample: reconnecting the funds edge (A,B) onto (A,C) while an
edge with the library id `xy-edge__A-C` and the same endpoints (but a
different type, so the duplicate guard does not fire) already exists does not
re-derive the moved edge's id: no edge `e-A-C-funds` appears, the moved funds
edge keeps the library id instead. -/
theorem OrgNet.onReconnect_id_counterexample :
    ((OrgNet.onReconnectStep false OrgNet.oldFunds OrgNet.newConnAC OrgNet.reconState).edges.any
        (fun e => decide (e.id = "e-A-C-funds"))) = false ∧
    ((OrgNet.onReconnectStep false OrgNet.oldFunds OrgNet.newConnAC OrgNet.reconState).edges.any
        (fun e => decide (e.id = "xy-edge__A-C" ∧ e.source = "A" ∧ e.target = "C" ∧
          e.data = some .funds))) = true := by
  decide

/-- C6 (amended): reconnecting an existing edge to new endpoints is a no-op
when another edge already has the new endpoints and the moved edge's type;
otherwise — provided no existing edge carries the library-derived id
`xy-edge__…` together with the new endpoints — the moved edge is replaced by
an edge with the same connectionType, the registry style of that type, and an
id re-derived from the new endpoints and that type. -/
theorem OrgNet.onReconnect_amended (oldEdge : OrgNet.REdge) (newConn : OrgNet.Connection)
    (s : OrgNet.WState) (hne : newConn.source ≠ newConn.target) :
    ((∃ e ∈ s.edges, e.id ≠ oldEdge.id ∧ e.source = newConn.source ∧
        e.target = newConn.target ∧ e.data = some (oldEdge.data.getD .reportsTo)) →
      OrgNet.onReconnectStep false oldEdge newConn s = s) ∧
    (¬ (∃ e ∈ s.edges, e.id ≠ oldEdge.id ∧ e.source = newConn.source ∧
        e.target = newConn.target ∧ e.data = some (oldEdge.data.getD .reportsTo)) →
     newConn.source ≠ "" → newConn.target ≠ "" →
     (∃ e ∈ s.edges, e.id = oldEdge.id) →
     (∀ e ∈ s.edges, ¬ (e.id = OrgNet.xyEdgeId newConn ∧ e.source = newConn.source ∧
        e.target = newConn.target)) →
      (OrgNet.onReconnectStep false oldEdge newConn s).edges =
        s.edges.filter (fun e => decide (e.id ≠ oldEdge.id)) ++
        [{ oldEdge with
            id := OrgNet.deriveEdgeId newConn.source newConn.target
              (oldEdge.data.getD .reportsTo),
            source := newConn.source, target := newConn.target,
            sourceHandle := newConn.sourceHandle, targetHandle := newConn.targetHandle,
            etype := "smoothstep",
            animated := (OrgNet.CONNECTION_TYPES (oldEdge.data.getD .reportsTo)).animated,
            style := { stroke := (OrgNet.CONNECTION_TYPES (oldEdge.data.getD .reportsTo)).color,
                       strokeWidth := 2,
                       strokeDasharray := (OrgNet.CONNECTION_TYPES
                         (oldEdge.data.getD .reportsTo)).strokeDasharray },
            data := some (oldEdge.data.getD .reportsTo) }]) := by
  constructor
  · intro hdup
    have hdupTrue : (s.edges.any (fun e => decide (e.id ≠ oldEdge.id ∧
        e.source = newConn.source ∧ e.target = newConn.target ∧
        e.data = some (oldEdge.data.getD .reportsTo)))) = true := by
      rw [List.any_eq_true]
      obtain ⟨e, he, hP⟩ := hdup
      exact ⟨e, he, decide_eq_true hP⟩
    simp only [OrgNet.onReconnectStep, hdupTrue]
    simp [hne]
  · intro hnd hsrc htgt hmem hcol
    have hdupFalse : (s.edges.any (fun e => decide (e.id ≠ oldEdge.id ∧
        e.source = newConn.source ∧ e.target = newConn.target ∧
        e.data = some (oldEdge.data.getD .reportsTo)))) = false := by
      rw [Bool.eq_false_iff]
      intro hx
      rw [List.any_eq_true] at hx
      obtain ⟨e, he, hP⟩ := hx
      rw [decide_eq_true_eq] at hP
      exact hnd ⟨e, he, hP⟩
    have hanyOld : (s.edges.any (fun e => decide (e.id = oldEdge.id))) = true := by
      rw [List.any_eq_true]
      obtain ⟨e, he, hP⟩ := hmem
      exact ⟨e, he, decide_eq_true hP⟩
    have hrec : OrgNet.reconnectEdge oldEdge newConn s.edges =
        s.edges.filter (fun e => decide (e.id ≠ oldEdge.id)) ++
        [{ oldEdge with
            id := OrgNet.xyEdgeId newConn, source := newConn.source,
            target := newConn.target, sourceHandle := newConn.sourceHandle,
            targetHandle := newConn.targetHandle }] := by
      unfold OrgNet.reconnectEdge
      rw [if_neg (by rintro (h | h); exacts [hsrc h, htgt h]), if_pos hanyOld]
    simp only [OrgNet.onReconnectStep, hdupFalse, hrec]
    simp only [hne, if_false, ite_false, Bool.false_eq_true, List.map_append]
    congr 1
    · refine (List.map_congr_left ?_).trans (List.map_id _)
      intro e hef
      have hes : e ∈ s.edges := (List.mem_filter.mp hef).1
      rw [if_neg]
      · rfl
      · rintro ⟨-, -, hno⟩
        refine hno (List.any_eq_true.mpr ⟨e, hes, ?_⟩)
        simp
    · simp only [List.map_cons, List.map_nil]
      rw [if_pos]
      · rfl
      · refine ⟨trivial, trivial, ?_⟩
        intro hx
        rw [List.any_eq_true] at hx
        obtain ⟨o, ho, hP⟩ := hx
        rw [decide_eq_true_eq] at hP
        exact hcol o ho hP

/-- State where the reconnect target (A,C,funds) already exists as another edge. -/
def OrgNet.dupState : OrgNet.WState :=
  { nodes := [], edges := [OrgNet.oldFunds, OrgNet.mkEdge "g1" "A" "C" .funds],
    pendingConnection := none, selectedNodeId := none }

/-- State holding only the funds edge about to be reconnected. -/
def OrgNet.singleState : OrgNet.WState :=
  { nodes := [], edges := [OrgNet.oldFunds], pendingConnection := none, selectedNodeId := none }

/-- C6 witness: the duplicate reconnect is a no-op, and the clean reconnect of
(A,B,funds) onto (A,C) yields the funds edge with re-derived id. -/
theorem OrgNet.onReconnect_amended_witness :
    OrgNet.onReconnectStep false OrgNet.oldFunds OrgNet.newConnAC OrgNet.dupState =
        OrgNet.dupState ∧
    (OrgNet.onReconnectStep false OrgNet.oldFunds OrgNet.newConnAC OrgNet.singleState).edges =
      OrgNet.singleState.edges.filter (fun e => decide (e.id ≠ OrgNet.oldFunds.id)) ++
        [{ OrgNet.oldFunds with
            id := OrgNet.deriveEdgeId OrgNet.newConnAC.source OrgNet.newConnAC.target
              (OrgNet.oldFunds.data.getD .reportsTo),
            source := OrgNet.newConnAC.source, target := OrgNet.newConnAC.target,
            sourceHandle := OrgNet.newConnAC.sourceHandle,
            targetHandle := OrgNet.newConnAC.targetHandle,
            etype := "smoothstep",
            animated := (OrgNet.CONNECTION_TYPES (OrgNet.oldFunds.data.getD .reportsTo)).animated,
            style := { stroke := (OrgNet.CONNECTION_TYPES
                         (OrgNet.oldFunds.data.getD .reportsTo)).color,
                       strokeWidth := 2,
                       strokeDasharray := (OrgNet.CONNECTION_TYPES
                         (OrgNet.oldFunds.data.getD .reportsTo)).strokeDasharray },
            data := some (OrgNet.oldFunds.data.getD .reportsTo) }] :=
  ⟨(OrgNet.onReconnect_amended OrgNet.oldFunds OrgNet.newConnAC OrgNet.dupState
      (by decide)).1 (by decide),
   (OrgNet.onReconnect_amended OrgNet.oldFunds OrgNet.newConnAC OrgNet.singleState
      (by decide)).2 (by decide) (by decide) (by decide) (by decide) (by decide)⟩
